import Mathlib

set_option maxRecDepth 10000

/-
Verification of the dasai-builder repository: the 128x64 XBM bitmap codec and
C-array formatting of conv.py / conv3.py, and the SSD1306 eye-animation
scripts of adrafruit-translator.py.

Modelling conventions:
- A grayscale raster is a total function from row and column to a pixel
  intensity (a natural number; the code only ever writes 0 or 255); only the
  values at y < 64, x < 128 are meaningful, matching the fixed canvas.
- Python lists of bytes are List Nat, bytes being < 256 where the code
  guarantees it.
- Python integer division (//) on the animation geometry is floor division,
  modelled by Int.fdiv.
- Fallible Python code (raise ValueError / IndexError) is modelled with
  Option: none is the failure case.
-/

namespace DasaiBuilder

/-- Canvas width in pixels, WIDTH = 128 in conv.py and conv3.py. -/
def WIDTH : Nat := 128

/-- Canvas height in pixels, HEIGHT = 64. -/
def HEIGHT : Nat := 64

/-- Bytes per row, ROW_BYTES = WIDTH // 8 = 16. -/
def ROW_BYTES : Nat := WIDTH / 8

/-- Total packed size, BYTES_EXPECTED = (WIDTH * HEIGHT) // 8 = 1024. -/
def BYTES_EXPECTED : Nat := WIDTH * HEIGHT / 8

/-- One step of the inner packing loop of image_to_xbm_bytes:
if the pixel is on, set bit number bit of the byte (byte |= 1 << bit). -/
def bitStep (byte : Nat) (b : Bool) (bit : Nat) : Nat :=
  if b then byte ||| (1 <<< bit) else byte

/-- One packed byte of the XBM encoders: for bit positions 0..7 the source
sets bit number bit when the pixel at x = xb*8 + bit of row y is on
(bit 0 = leftmost pixel, LSB first). -/
def packByte (isOn : Nat → Nat → Bool) (y xb : Nat) : Nat :=
  (List.range 8).foldl (fun byte bit => bitStep byte (isOn y (xb * 8 + bit)) bit) 0

/-- The nested packing loops shared by conv.py and conv3.py:
for y in range(HEIGHT): for xb in range(ROW_BYTES): data.append(byte). -/
def packXBM (isOn : Nat → Nat → Bool) : List Nat :=
  ((List.range HEIGHT).map (fun y =>
    (List.range ROW_BYTES).map (fun xb => packByte isOn y xb))).flatten

/-- The byte built by the 8-step packing loop, with the eight pixel tests as
explicit arguments; packByte is definitionally of this shape. -/
def byte8 (b0 b1 b2 b3 b4 b5 b6 b7 : Bool) : Nat :=
  bitStep (bitStep (bitStep (bitStep (bitStep (bitStep (bitStep
    (bitStep 0 b0 0) b1 1) b2 2) b3 3) b4 4) b5 5) b6 6) b7 7

namespace Conv3

/-- Pixel-on test of the conv3.py encoder: is_white = (px == 255);
on = is_white if white_is_on else (not is_white). -/
def pixOn (img : Nat → Nat → Nat) (white_is_on : Bool) (y x : Nat) : Bool :=
  let is_white := img y x == 255
  if white_is_on then is_white else !is_white

/-- Encoder image_to_xbm_bytes of conv3.py: row-major, 16 bytes per row,
LSB = leftmost pixel, polarity selected by white_is_on. -/
def image_to_xbm_bytes (img : Nat → Nat → Nat) (white_is_on : Bool) : List Nat :=
  packXBM (pixOn img white_is_on)

/-- Pixel (y, x) of the raster produced by the decoding loop of conv3.py: the
iteration writing arr[y, x] reads byte data[y * ROW_BYTES + x / 8] and tests
bit x % 8 (byte & (1 << bit)), then applies the on_is_white polarity. -/
def decodePixel (data : List Nat) (on_is_white : Bool) (y x : Nat) : Nat :=
  let byte := data.getD (y * ROW_BYTES + x / 8) 0
  let is_on := byte &&& (1 <<< (x % 8)) != 0
  if on_is_white then (if is_on then 255 else 0) else (if is_on then 0 else 255)

/-- Decoder xbm_bytes_to_image of conv3.py: raises ValueError (modelled as
none) unless the input has exactly BYTES_EXPECTED = 1024 bytes. -/
def xbm_bytes_to_image (data : List Nat) (on_is_white : Bool) :
    Option (Nat → Nat → Nat) :=
  if data.length = BYTES_EXPECTED then some (decodePixel data on_is_white) else none

/-- Binarization of one grayscale value by conv3.py to_bw:
arr = 255 - arr when invert, then (arr >= threshold) * 255. The resize to the
already-fixed 128x64 size and the grayscale conversion are modelled as the
identity on an already 128x64 grayscale raster. -/
def to_bw_pixel (threshold : Nat) (invert : Bool) (g : Nat) : Nat :=
  let a := if invert then 255 - g else g
  if threshold ≤ a then 255 else 0

/-- Pixelwise lift of to_bw_pixel over a raster. -/
def to_bw (threshold : Nat) (invert : Bool) (img : Nat → Nat → Nat) :
    Nat → Nat → Nat :=
  fun y x => to_bw_pixel threshold invert (img y x)

/-- Uppercase hexadecimal digit, as produced by the %02X format. -/
def hexDigitChar (n : Nat) : Char :=
  if n < 10 then Char.ofNat (48 + n) else Char.ofNat (55 + n)

/-- Characters of the literal produced by f-string 0x{b:02X} for b <= 255:
two uppercase hex digits after the 0x prefix. -/
def byteHex (b : Nat) : List Char :=
  ['0', 'x', hexDigitChar (b / 16), hexDigitChar (b % 16)]

/-- Characters of the comma-space join of the hex literals of one 16-byte
chunk, as built by the comma join in format_c_array. -/
def hexJoin : List Nat → List Char
  | [] => []
  | [b] => byteHex b
  | b :: bs => byteHex b ++ ',' :: ' ' :: hexJoin bs

/-- One emitted line of format_c_array: a tab, the joined hex values, and the
terminating comma. -/
def lineOf (chunk : List Nat) : List Char :=
  '\t' :: (hexJoin chunk ++ [','])

/-- Slicing data[i:i+16] for i in range(0, len(data), 16). -/
def chunk16 (l : List Nat) : List (List Nat) :=
  if h : l = [] then [] else l.take 16 :: chunk16 (l.drop 16)
termination_by l.length
decreasing_by
  have hpos : 0 < l.length := List.length_pos.mpr h
  simp only [List.length_drop]
  omega

/-- Newline join of the emitted lines. -/
def joinNL : List (List Char) → List Char
  | [] => []
  | [l] => l
  | l :: ls => l ++ '\n' :: joinNL ls

/-- Decimal digits of a natural number, as produced by Python str(). -/
def natDecimal (n : Nat) : List Char :=
  if n < 10 then [Char.ofNat (48 + n)]
  else natDecimal (n / 10) ++ [Char.ofNat (48 + n % 10)]
termination_by n
decreasing_by
  exact Nat.div_lt_self (by omega) (by omega)

/-- Decimal rendering of the frame_index int interpolated into the array
name, as produced by the f-string. -/
def intDecimal (i : Int) : List Char :=
  if i < 0 then '-' :: natDecimal i.natAbs else natDecimal i.toNat

/-- Characters of the text returned by format_c_array of conv3.py:
a declaration header naming epd_bitmap_frame_index, the 16-bytes-per-line hex
body, and the closing brace. -/
def format_c_array (data : List Nat) (frame_index : Int) : List Char :=
  "const unsigned char epd_bitmap_".data ++ intDecimal frame_index
    ++ " [] PROGMEM = \x7b\n".data
    ++ joinNL ((chunk16 data).map lineOf)
    ++ "\n\x7d;".data

/-- Test for a hexadecimal digit character, the class [0-9a-fA-F]. -/
def isHexDig (c : Char) : Bool :=
  ('0' ≤ c && c ≤ '9') || ('a' ≤ c && c ≤ 'f') || ('A' ≤ c && c ≤ 'F')

/-- Left-to-right non-overlapping scan of the regular expression
0x[0-9a-fA-F]\x7b1,2\x7d used by re.findall in parse_c_array: at each
position a match needs the two characters 0 x, then greedily one or two hex
digits; on failure scanning resumes one position later, on success right
after the match. -/
def scanHex : List Char → List (List Char)
  | [] => []
  | [_] => []
  | [_, _] => []
  | [c0, c1, d1] =>
    if c0 = '0' ∧ c1 = 'x' ∧ isHexDig d1 then [[c0, c1, d1]]
    else scanHex [c1, d1]
  | c0 :: c1 :: d1 :: d2 :: r =>
    if c0 = '0' ∧ c1 = 'x' ∧ isHexDig d1 then
      if isHexDig d2 then [c0, c1, d1, d2] :: scanHex r
      else [c0, c1, d1] :: scanHex (d2 :: r)
    else scanHex (c1 :: d1 :: d2 :: r)
termination_by l => l.length
decreasing_by
  all_goals simp_arith [List.length]

/-- Numeric value of one hex digit character, as used by int(h, 16). -/
def hexVal (c : Char) : Nat :=
  if '0' ≤ c && c ≤ '9' then c.toNat - 48
  else if 'a' ≤ c && c ≤ 'f' then c.toNat - 87
  else if 'A' ≤ c && c ≤ 'F' then c.toNat - 55
  else 0

/-- Value of a matched token 0xH or 0xHH under int(h, 16): base-16 fold of
the digits after the 0x prefix. -/
def tokenVal (tok : List Char) : Nat :=
  (tok.drop 2).foldl (fun acc c => 16 * acc + hexVal c) 0

/-- Word character of the regex word-boundary, the class [A-Za-z0-9_]. -/
def isWordChar (c : Char) : Bool :=
  c.isAlphanum || c = '_'

/-- Value of a decimal token under int(). -/
def decVal (t : List Char) : Nat :=
  t.foldl (fun acc c => 10 * acc + (c.toNat - 48)) 0

/-- Scan of the fallback regex \b\d+\b of parse_c_array: maximal digit runs
whose two neighbours (tracked on the left by prevWord) are not word
characters. -/
def scanNums (prevWord : Bool) : List Char → List (List Char)
  | [] => []
  | c :: cs =>
    if c.isDigit && !prevWord then
      let run := c :: cs.takeWhile Char.isDigit
      let rest := cs.dropWhile Char.isDigit
      if (rest.head?.map isWordChar).getD false then scanNums true rest
      else run :: scanNums true rest
    else scanNums (isWordChar c) cs
termination_by l => l.length
decreasing_by
  all_goals simp only [List.length_cons]
  all_goals have hdw : (cs.dropWhile Char.isDigit).length ≤ cs.length :=
    (List.dropWhile_sublist _).length_le
  all_goals omega

/-- Parser parse_c_array of conv3.py: prefer the hex tokens; with none, fall
back to decimal tokens masked by 0xFF; then require exactly 1024 values
(ValueError modelled as none). -/
def parse_c_array (text : List Char) : Option (List Nat) :=
  let hexToks := scanHex text
  let data :=
    if hexToks = [] then (scanNums false text).map (fun t => decVal t % 256)
    else hexToks.map tokenVal
  if data.length = BYTES_EXPECTED then some data else none

end Conv3

namespace Conv

/-- Binarization of one grayscale value by conv.py to_bw: (arr > 128) * 255,
a strict comparison against the fixed threshold 128. -/
def to_bw_pixel (g : Nat) : Nat :=
  if 128 < g then 255 else 0

/-- Pixelwise lift of to_bw_pixel over a raster. -/
def to_bw (img : Nat → Nat → Nat) : Nat → Nat → Nat :=
  fun y x => to_bw_pixel (img y x)

/-- Encoder image_to_xbm_bytes of conv.py: same nested loops, fixed polarity
(a bit is set exactly when the pixel is 255). -/
def image_to_xbm_bytes (img : Nat → Nat → Nat) : List Nat :=
  packXBM (fun y x => img y x == 255)

/-- Pixel (y, x) written by the decoding loop of conv.py:
arr[y, x] = 255 if (b & (1 << bit)) else 0. -/
def decodePixel (data : List Nat) (y x : Nat) : Nat :=
  let b := data.getD (y * ROW_BYTES + x / 8) 0
  if b &&& (1 <<< (x % 8)) != 0 then 255 else 0

/-- Decoder xbm_bytes_to_image of conv.py. It performs no length check: the
loop indexes data[idx] for idx = 0..1023, so an input shorter than 1024
raises IndexError (modelled as none), and a longer input is accepted with
only its first 1024 entries ever read. -/
def xbm_bytes_to_image (data : List Nat) : Option (Nat → Nat → Nat) :=
  if BYTES_EXPECTED ≤ data.length then some (decodePixel data) else none

end Conv

namespace Translator

/-- Foreground intensity of adrafruit-translator.py. -/
def WHITE : Int := 255

/-- Background intensity. -/
def BLACK : Int := 0

/-- Reference eye width ref_w = 40. -/
def refW : Int := 40

/-- Reference eye height ref_h = 40. -/
def refH : Int := 40

/-- Inter-eye spacing, space = 10. -/
def space : Int := 10

/-- Rounded corner radius, corner = 10. -/
def corner : Int := 10

/-- Python floor division on the geometry integers. -/
def pydiv (a b : Int) : Int := Int.fdiv a b

/-- One drawing-primitive call on the shared canvas. The primitives are the
external 2D raster collaborator (cv2-backed OLED methods); a frame is
faithfully identified by the sequence of primitive calls drawn since the
last clearDisplay, each recorded with its integer arguments. -/
inductive DrawOp : Type
  | fillRoundRect (x y w h r color : Int)
  | fillTriangle (x1 y1 x2 y2 x3 y3 color : Int)
  | fillRect (x y w h color : Int)
  | drawLine (x1 y1 x2 y2 color : Int)
  | fillCircle (x y r color : Int)
deriving DecidableEq

/-- One eye geometry record: dictionary with keys x, y, w, h. -/
structure Eye : Type where
  x : Int
  y : Int
  w : Int
  h : Int
deriving DecidableEq

/-- The pair of process-wide eye records left_eye and right_eye. -/
structure Eyes : Type where
  left : Eye
  right : Eye
deriving DecidableEq

/-- State threaded through one expression invocation: the two mutable eye
records, the canvas (primitive calls since the last clearDisplay), and the
appended frame snapshots. -/
structure AnimState : Type where
  left : Eye
  right : Eye
  oled : List DrawOp
  frames : List (List DrawOp)
deriving DecidableEq

/-- The two fillRoundRect calls of drawEyes, one per eye, drawn at
(x - w//2, y - h//2) with the corner radius and WHITE. -/
def eyeOps (l r : Eye) : List DrawOp :=
  [ .fillRoundRect (l.x - pydiv l.w 2) (l.y - pydiv l.h 2) l.w l.h corner WHITE,
    .fillRoundRect (r.x - pydiv r.w 2) (r.y - pydiv r.h 2) r.w r.h corner WHITE ]

/-- drawEyes: clearDisplay, draw both eyes, append a display snapshot. -/
def drawEyes (s : AnimState) : AnimState :=
  { s with oled := eyeOps s.left s.right,
           frames := s.frames ++ [eyeOps s.left s.right] }

/-- centerEyes resets w, h and y of both records to the reference values.
It does not touch x. -/
def centerEyes (s : AnimState) : AnimState :=
  { s with left := { s.left with w := refW, h := refH, y := 32 },
           right := { s.right with w := refW, h := refH, y := 32 } }

/-- A hold loop: for _ in range(n): frames.append(oled.display()). -/
def repFrames (n : Nat) (s : AnimState) : AnimState :=
  { s with frames := s.frames ++ List.replicate n s.oled }

/-- One step of the blink loops: change both heights by -d, then drawEyes. -/
def blinkStep (d : Int) (s : AnimState) : AnimState :=
  drawEyes { s with left := { s.left with h := s.left.h - d },
                    right := { s.right with h := s.right.h - d } }

/-- blink: centerEyes, 3 steps shrinking by speed, 3 steps growing back. -/
def blink (speed : Int) (s0 : AnimState) : AnimState :=
  let s := centerEyes s0
  let s := (List.range 3).foldl (fun s _ => blinkStep speed s) s
  (List.range 3).foldl (fun s _ => blinkStep (-speed) s) s

/-- One iteration of the happyEye loop. The Python loop reads offset, draws
both BLACK triangles cumulatively onto the canvas, appends a snapshot, then
does offset -= 2; so iteration i uses offset = ref_h//2 - 2*i. -/
def happyStep (s : AnimState) (i : Nat) : AnimState :=
  let offset : Int := pydiv refH 2 - 2 * (i : Int)
  let ops := [
    DrawOp.fillTriangle (s.left.x - pydiv refW 2) (s.left.y + offset)
      (s.left.x + pydiv refW 2) (s.left.y + offset + 6)
      (s.left.x - pydiv refW 2) (s.left.y + refH + offset) BLACK,
    DrawOp.fillTriangle (s.right.x + pydiv refW 2) (s.right.y + offset)
      (s.right.x - pydiv refW 2) (s.right.y + offset + 6)
      (s.right.x + pydiv refW 2) (s.right.y + refH + offset) BLACK ]
  let s1 := { s with oled := s.oled ++ ops }
  { s1 with frames := s1.frames ++ [s1.oled] }

/-- happyEye: centerEyes, one centered render, then 10 overlay steps. -/
def happyEye (s0 : AnimState) : AnimState :=
  (List.range 10).foldl happyStep (drawEyes (centerEyes s0))

/-- One iteration of the sadEye loop (offset = ref_h//2 - i): two eyebrow
triangles and two bottom eyelid lines, then a snapshot. -/
def sadStep (s : AnimState) (i : Nat) : AnimState :=
  let offset : Int := pydiv refH 2 - (i : Int)
  let ops := [
    DrawOp.fillTriangle (s.left.x - pydiv s.left.w 2 - 1) (s.left.y - offset)
      (s.left.x + pydiv s.left.w 2 + 1) (s.left.y - 5 - offset)
      (s.left.x - pydiv s.left.w 2 - 1) (s.left.y - 10 - offset) BLACK,
    DrawOp.fillTriangle (s.right.x + pydiv s.right.w 2 + 1) (s.right.y - offset)
      (s.right.x - pydiv s.right.w 2 - 1) (s.right.y - 5 - offset)
      (s.right.x + pydiv s.right.w 2 + 1) (s.right.y - 10 - offset) BLACK,
    DrawOp.drawLine (s.left.x - pydiv s.left.w 2 + 2) (s.left.y + pydiv s.left.h 2)
      (s.left.x + pydiv s.left.w 2 - 2) (s.left.y + pydiv s.left.h 2) BLACK,
    DrawOp.drawLine (s.right.x - pydiv s.right.w 2 + 2) (s.right.y + pydiv s.right.h 2)
      (s.right.x + pydiv s.right.w 2 - 2) (s.right.y + pydiv s.right.h 2) BLACK ]
  let s1 := { s with oled := s.oled ++ ops }
  { s1 with frames := s1.frames ++ [s1.oled] }

/-- sadEye: centered render, 10 animated steps, 30 hold frames. -/
def sadEye (s0 : AnimState) : AnimState :=
  repFrames 30 ((List.range 10).foldl sadStep (drawEyes (centerEyes s0)))

/-- One iteration of the angryEye loop (offset = ref_h//2 - i): the two
inverted-slope brow triangles, then a snapshot. -/
def angryStep (s : AnimState) (i : Nat) : AnimState :=
  let offset : Int := pydiv refH 2 - (i : Int)
  let ops := [
    DrawOp.fillTriangle (s.left.x - pydiv s.left.w 2 - 1) (s.left.y - 10 - offset)
      (s.left.x + pydiv s.left.w 2 + 1) (s.left.y - offset)
      (s.left.x + pydiv s.left.w 2 + 1) (s.left.y - 10 - offset) BLACK,
    DrawOp.fillTriangle (s.right.x + pydiv s.right.w 2 + 1) (s.right.y - 10 - offset)
      (s.right.x - pydiv s.right.w 2 - 1) (s.right.y - offset)
      (s.right.x - pydiv s.right.w 2 - 1) (s.right.y - 10 - offset) BLACK ]
  let s1 := { s with oled := s.oled ++ ops }
  { s1 with frames := s1.frames ++ [s1.oled] }

/-- angryEye: centered render, 10 animated steps, 30 hold frames. -/
def angryEye (s0 : AnimState) : AnimState :=
  repFrames 30 ((List.range 10).foldl angryStep (drawEyes (centerEyes s0)))

/-- One iteration of the tiredEye loop (offset = ref_h//2 - i): two upper
eyelid rectangles and two sleepy lines, then a snapshot. -/
def tiredStep (s : AnimState) (i : Nat) : AnimState :=
  let offset : Int := pydiv refH 2 - (i : Int)
  let ops := [
    DrawOp.fillRect (s.left.x - pydiv s.left.w 2 - 1) (s.left.y - offset)
      (s.left.w + 2) (pydiv s.left.h 3) BLACK,
    DrawOp.fillRect (s.right.x - pydiv s.right.w 2 - 1) (s.right.y - offset)
      (s.right.w + 2) (pydiv s.right.h 3) BLACK,
    DrawOp.drawLine (s.left.x - pydiv s.left.w 2 + 2) (s.left.y + pydiv s.left.h 2 + 2)
      (s.left.x - pydiv s.left.w 2 + 8) (s.left.y + pydiv s.left.h 2 + 2) BLACK,
    DrawOp.drawLine (s.right.x - pydiv s.right.w 2 + 2) (s.right.y + pydiv s.right.h 2 + 2)
      (s.right.x - pydiv s.right.w 2 + 8) (s.right.y + pydiv s.right.h 2 + 2) BLACK ]
  let s1 := { s with oled := s.oled ++ ops }
  { s1 with frames := s1.frames ++ [s1.oled] }

/-- tiredEye: centered render, 10 animated steps, 30 hold frames. -/
def tiredEye (s0 : AnimState) : AnimState :=
  repFrames 30 ((List.range 10).foldl tiredStep (drawEyes (centerEyes s0)))

/-- First or second micro-movement of saccade: shift both eyes by
(8 * dirX, 6 * dirY) and change both heights by dh. -/
def saccadeMove (dirX dirY dh : Int) (s : AnimState) : AnimState :=
  { s with
    left := { s.left with x := s.left.x + 8 * dirX, y := s.left.y + 6 * dirY,
                          h := s.left.h + dh },
    right := { s.right with x := s.right.x + 8 * dirX, y := s.right.y + 6 * dirY,
                            h := s.right.h + dh } }

/-- saccade: micro-movement with a blink (h - 8), render, hold 2 frames;
second micro-movement reopening (h + 8), render, hold 3 frames. -/
def saccade (s0 : AnimState) (dirX dirY : Int) : AnimState :=
  let s := repFrames 2 (drawEyes (saccadeMove dirX dirY (-8) s0))
  repFrames 3 (drawEyes (saccadeMove dirX dirY 8 s))

/-- glance: a saccade, then centerEyes and one final render. -/
def glance (s : AnimState) (dx dy : Int) : AnimState :=
  drawEyes (centerEyes (saccade s dx dy))

/-- Injected randomness of lookAround: shuffled is the result of
np.random.shuffle on the direction list [(-1,0), (1,0), (0,-1)] and count
the result of np.random.randint(2, 4), so count is 2 or 3. -/
structure Rand : Type where
  shuffled : List (Int × Int)
  count : Nat

/-- lookAround: one glance per selected direction, in shuffled order. -/
def lookAround (rand : Rand) (s : AnimState) : AnimState :=
  (rand.shuffled.take rand.count).foldl (fun s d => glance s d.1 d.2) s

/-- One growth iteration of heart_eye (size = 6, grow = iteration index):
per eye two filled circles (the lobes) and one filled triangle (the point),
drawn cumulatively, then a snapshot. -/
def heartStep (s : AnimState) (grow : Nat) : AnimState :=
  let g : Int := (grow : Int)
  let size : Int := 6
  let ops := [
    DrawOp.fillCircle (s.left.x - pydiv size 2 - g) (s.left.y - pydiv size 2 - g)
      (pydiv size 2 + g) WHITE,
    DrawOp.fillCircle (s.left.x + pydiv size 2 + g) (s.left.y - pydiv size 2 - g)
      (pydiv size 2 + g) WHITE,
    DrawOp.fillTriangle (s.left.x - size - 1 - g) (s.left.y - pydiv size 4 - g)
      (s.left.x + size + 1 + g) (s.left.y - pydiv size 4 - g)
      s.left.x (s.left.y + size + 2 + g) WHITE,
    DrawOp.fillCircle (s.right.x - pydiv size 2 - g) (s.right.y - pydiv size 2 - g)
      (pydiv size 2 + g) WHITE,
    DrawOp.fillCircle (s.right.x + pydiv size 2 + g) (s.right.y - pydiv size 2 - g)
      (pydiv size 2 + g) WHITE,
    DrawOp.fillTriangle (s.right.x - size - 1 - g) (s.right.y - pydiv size 4 - g)
      (s.right.x + size + 1 + g) (s.right.y - pydiv size 4 - g)
      s.right.x (s.right.y + size + 2 + g) WHITE ]
  let s1 := { s with oled := s.oled ++ ops }
  { s1 with frames := s1.frames ++ [s1.oled] }

/-- heart_eye: centerEyes, clearDisplay plus one (empty) snapshot, 5 growth
steps, then 36 hold frames. -/
def heart_eye (s0 : AnimState) : AnimState :=
  let s := centerEyes s0
  let s := { s with oled := [], frames := s.frames ++ [([] : List DrawOp)] }
  repFrames 36 ((List.range 5).foldl heartStep s)

/-- One closing step of sleepingEye: both heights forced to
ref_h - i * (ref_h // 10), then a render. -/
def sleepClose (s : AnimState) (i : Nat) : AnimState :=
  let hh : Int := refH - (i : Int) * pydiv refH 10
  drawEyes { s with left := { s.left with h := hh },
                    right := { s.right with h := hh } }

/-- One micro-blink cycle of sleepingEye: open by +4, render, hold 6; close
by -4, render, hold 12. -/
def sleepCycle (s : AnimState) (_i : Nat) : AnimState :=
  let s1 := repFrames 6 (drawEyes { s with
    left := { s.left with h := s.left.h + 4 },
    right := { s.right with h := s.right.h + 4 } })
  repFrames 12 (drawEyes { s1 with
    left := { s1.left with h := s1.left.h - 4 },
    right := { s1.right with h := s1.right.h - 4 } })

/-- sleepingEye: centerEyes, 10 closing steps, 30 hold frames, 3 micro-blink
cycles, then the explicit final override at h = ref_h // 6 with one render. -/
def sleepingEye (s0 : AnimState) : AnimState :=
  let s := centerEyes s0
  let s := (List.range 10).foldl sleepClose s
  let s := repFrames 30 s
  let s := (List.range 3).foldl sleepCycle s
  drawEyes { s with left := { s.left with h := pydiv refH 6 },
                    right := { s.right with h := pydiv refH 6 } }

/-- Fresh per-invocation state of run: the persistent eye records, a freshly
cleared OLED, and an empty frame list. -/
def initAnim (g : Eyes) : AnimState :=
  ⟨g.left, g.right, [], []⟩

/-- The if/elif dispatch of run on the expression identifier. There is no
else branch in the source: an unrecognized identifier leaves the state, and
hence the empty frame list, untouched. -/
def dispatch (rand : Rand) (expr : String) (s : AnimState) : AnimState :=
  if expr = "center" then drawEyes (centerEyes s)
  else if expr = "blink" then blink 8 (drawEyes s)
  else if expr = "happy" then happyEye s
  else if expr = "sad" then sadEye s
  else if expr = "angry" then angryEye s
  else if expr = "tired" then tiredEye s
  else if expr = "heart_eye" then heart_eye s
  else if expr = "look_left" then glance s (-1) 0
  else if expr = "look_right" then glance s 1 0
  else if expr = "look_up" then glance s 0 (-1)
  else if expr = "look_around" then lookAround rand s
  else if expr = "sleeping" then sleepingEye s
  else s

/-- The expression entry point run: builds a fresh OLED and frame list,
dispatches on the identifier against the persistent eye records, and yields
the produced frame sequence together with the records as the call leaves
them for the rest of the process. -/
def run (rand : Rand) (expr : String) (g : Eyes) :
    List (List DrawOp) × Eyes :=
  let s := dispatch rand expr (initAnim g)
  (s.frames, ⟨s.left, s.right⟩)

/-- The module-level initial geometry: left_eye at x = 64 - ref_w//2 -
space//2, right_eye at x = 64 + ref_w//2 + space//2, both 40x40 at y = 32. -/
def initEyes : Eyes :=
  ⟨⟨64 - pydiv refW 2 - pydiv space 2, 32, refW, refH⟩,
   ⟨64 + pydiv refW 2 + pydiv space 2, 32, refW, refH⟩⟩

/-- A concrete randomness value, used for invocations whose behaviour must
not depend on it. -/
def rand0 : Rand :=
  ⟨[(-1, 0), (1, 0), (0, -1)], 2⟩

/-- The enumerated identifier set of the drop-down. -/
def exprList : List String :=
  ["center", "blink", "happy", "sad", "angry", "tired", "heart_eye",
   "look_left", "look_right", "look_up", "look_around", "sleeping"]

end Translator

lemma packByte_eq_byte8 (isOn : Nat → Nat → Bool) (y xb : Nat) :
    packByte isOn y xb =
      byte8 (isOn y (xb * 8 + 0)) (isOn y (xb * 8 + 1)) (isOn y (xb * 8 + 2))
        (isOn y (xb * 8 + 3)) (isOn y (xb * 8 + 4)) (isOn y (xb * 8 + 5))
        (isOn y (xb * 8 + 6)) (isOn y (xb * 8 + 7)) := rfl

lemma byte8_bit0 (b0 b1 b2 b3 b4 b5 b6 b7 : Bool) :
    (byte8 b0 b1 b2 b3 b4 b5 b6 b7 &&& (1 <<< 0) != 0) = b0 := by
  revert b0 b1 b2 b3 b4 b5 b6 b7
  decide

lemma byte8_bit1 (b0 b1 b2 b3 b4 b5 b6 b7 : Bool) :
    (byte8 b0 b1 b2 b3 b4 b5 b6 b7 &&& (1 <<< 1) != 0) = b1 := by
  revert b0 b1 b2 b3 b4 b5 b6 b7
  decide

lemma byte8_bit2 (b0 b1 b2 b3 b4 b5 b6 b7 : Bool) :
    (byte8 b0 b1 b2 b3 b4 b5 b6 b7 &&& (1 <<< 2) != 0) = b2 := by
  revert b0 b1 b2 b3 b4 b5 b6 b7
  decide

lemma byte8_bit3 (b0 b1 b2 b3 b4 b5 b6 b7 : Bool) :
    (byte8 b0 b1 b2 b3 b4 b5 b6 b7 &&& (1 <<< 3) != 0) = b3 := by
  revert b0 b1 b2 b3 b4 b5 b6 b7
  decide

lemma byte8_bit4 (b0 b1 b2 b3 b4 b5 b6 b7 : Bool) :
    (byte8 b0 b1 b2 b3 b4 b5 b6 b7 &&& (1 <<< 4) != 0) = b4 := by
  revert b0 b1 b2 b3 b4 b5 b6 b7
  decide

lemma byte8_bit5 (b0 b1 b2 b3 b4 b5 b6 b7 : Bool) :
    (byte8 b0 b1 b2 b3 b4 b5 b6 b7 &&& (1 <<< 5) != 0) = b5 := by
  revert b0 b1 b2 b3 b4 b5 b6 b7
  decide

lemma byte8_bit6 (b0 b1 b2 b3 b4 b5 b6 b7 : Bool) :
    (byte8 b0 b1 b2 b3 b4 b5 b6 b7 &&& (1 <<< 6) != 0) = b6 := by
  revert b0 b1 b2 b3 b4 b5 b6 b7
  decide

lemma byte8_bit7 (b0 b1 b2 b3 b4 b5 b6 b7 : Bool) :
    (byte8 b0 b1 b2 b3 b4 b5 b6 b7 &&& (1 <<< 7) != 0) = b7 := by
  revert b0 b1 b2 b3 b4 b5 b6 b7
  decide

/-- Flattening rows of 16 entries visits flat index i = y * 16 + xb in order. -/
lemma flatten_rows16 {α : Type} (f : Nat → Nat → α) :
    ∀ m, ((List.range m).map (fun y => (List.range 16).map (f y))).flatten
      = (List.range (m * 16)).map (fun i => f (i / 16) (i % 16)) := by
  intro m
  induction m with
  | zero => simp
  | succ n ih =>
    rw [List.range_succ n, List.map_append, List.flatten_append, ih]
    have hadd : (n + 1) * 16 = n * 16 + 16 := by ring
    rw [hadd, List.range_add, List.map_append, List.map_map]
    simp only [List.map_cons, List.map_nil, List.flatten_cons, List.flatten_nil,
      List.append_nil]
    congr 1
    apply List.map_congr_left
    intro j hj
    have hj16 : j < 16 := List.mem_range.mp hj
    have h1 : (n * 16 + j) / 16 = n := by omega
    have h2 : (n * 16 + j) % 16 = j := by omega
    simp [Function.comp, h1, h2]

/-- The row-major nested loops visit byte index i = y * 16 + xb in order, so
the packed list is the image of the index range under i to (i / 16, i % 16). -/
lemma packXBM_eq_map (isOn : Nat → Nat → Bool) :
    packXBM isOn =
      (List.range (HEIGHT * ROW_BYTES)).map (fun i => packByte isOn (i / 16) (i % 16)) := by
  show ((List.range 64).map (fun y => (List.range 16).map (fun xb => packByte isOn y xb))).flatten
    = (List.range (64 * 16)).map (fun i => packByte isOn (i / 16) (i % 16))
  exact flatten_rows16 (fun y xb => packByte isOn y xb) 64

lemma packXBM_length (isOn : Nat → Nat → Bool) : (packXBM isOn).length = 1024 := by
  rw [packXBM_eq_map]
  simp [HEIGHT, ROW_BYTES, WIDTH]

lemma BYTES_EXPECTED_eq : BYTES_EXPECTED = 1024 := rfl

lemma getD_map_range {α : Type} (f : Nat → α) (N i : Nat) (d : α) (hi : i < N) :
    ((List.range N).map f).getD i d = f i := by
  rw [List.getD_eq_getElem?_getD, List.getElem?_map]
  rw [List.getElem?_eq_getElem (by simpa using hi)]
  simp

lemma packXBM_getD (isOn : Nat → Nat → Bool) (i : Nat) (hi : i < 1024) :
    (packXBM isOn).getD i 0 = packByte isOn (i / 16) (i % 16) := by
  rw [packXBM_eq_map]
  exact getD_map_range _ _ _ _ (by simpa [HEIGHT, ROW_BYTES, WIDTH] using hi)

/-- Reading back bit x % 8 of byte y * 16 + x / 8 of the packed stream
recovers the pixel test at (y, x). -/
lemma packXBM_bit (isOn : Nat → Nat → Bool) (y x : Nat) (hy : y < 64) (hx : x < 128) :
    ((packXBM isOn).getD (y * 16 + x / 8) 0 &&& (1 <<< (x % 8)) != 0) = isOn y x := by
  obtain ⟨q, r, hr, rfl⟩ : ∃ q r, r < 8 ∧ x = q * 8 + r :=
    ⟨x / 8, x % 8, by omega, by omega⟩
  have h1 : (q * 8 + r) / 8 = q := by omega
  have h2 : (q * 8 + r) % 8 = r := by omega
  rw [h1, h2, packXBM_getD _ _ (by omega)]
  have h3 : (y * 16 + q) / 16 = y := by omega
  have h4 : (y * 16 + q) % 16 = q := by omega
  rw [h3, h4, packByte_eq_byte8]
  interval_cases r
  · exact byte8_bit0 _ _ _ _ _ _ _ _
  · exact byte8_bit1 _ _ _ _ _ _ _ _
  · exact byte8_bit2 _ _ _ _ _ _ _ _
  · exact byte8_bit3 _ _ _ _ _ _ _ _
  · exact byte8_bit4 _ _ _ _ _ _ _ _
  · exact byte8_bit5 _ _ _ _ _ _ _ _
  · exact byte8_bit6 _ _ _ _ _ _ _ _
  · exact byte8_bit7 _ _ _ _ _ _ _ _

lemma conv3_encode_length (img : Nat → Nat → Nat) (p : Bool) :
    (Conv3.image_to_xbm_bytes img p).length = 1024 :=
  packXBM_length _

/-- C1: for every 128x64 raster with pixels in 0 or 255 and every polarity p
(encoding with white_is_on = p and decoding with on_is_white = p), decoding
the encoding succeeds and yields exactly the original pixel values on the
whole canvas. -/
theorem C1_decode_encode_roundtrip (img : Nat → Nat → Nat) (p : Bool)
    (h : ∀ y, y < 64 → ∀ x, x < 128 → img y x = 0 ∨ img y x = 255) :
    ∃ f, Conv3.xbm_bytes_to_image (Conv3.image_to_xbm_bytes img p) p = some f ∧
      ∀ y, y < 64 → ∀ x, x < 128 → f y x = img y x := by
  refine ⟨Conv3.decodePixel (Conv3.image_to_xbm_bytes img p) p, ?_, ?_⟩
  · rw [Conv3.xbm_bytes_to_image, if_pos (by rw [conv3_encode_length, BYTES_EXPECTED_eq])]
  · intro y hy x hx
    have hrb : ROW_BYTES = 16 := rfl
    simp only [Conv3.decodePixel, Conv3.image_to_xbm_bytes, hrb,
      packXBM_bit (Conv3.pixOn img p) y x hy hx]
    rcases h y hy x hx with h0 | h255 <;> cases p <;>
      simp [Conv3.pixOn, *]

/-- Concrete instance of the round trip for the all-black raster. -/
theorem C1_witness :
    ∃ f, Conv3.xbm_bytes_to_image
        (Conv3.image_to_xbm_bytes (fun _ _ => 0) true) true = some f ∧
      ∀ y, y < 64 → ∀ x, x < 128 → f y x = 0 :=
  C1_decode_encode_roundtrip (fun _ _ => 0) true (fun _ _ _ _ => Or.inl rfl)

/-- C2: both encoders pack every raster to exactly 1024 bytes; the raster
whose only ON pixel is (x, y) = (0, 0) packs to 0x01 followed by 1023 zero
bytes, and the raster whose only ON pixel is (7, 0) packs byte 0 = 0x80. -/
theorem C2_encode_size_and_bit_order :
    (∀ (img : Nat → Nat → Nat) (p : Bool),
        (Conv3.image_to_xbm_bytes img p).length = 1024) ∧
    (∀ img : Nat → Nat → Nat, (Conv.image_to_xbm_bytes img).length = 1024) ∧
    Conv3.image_to_xbm_bytes (fun y x => if y = 0 ∧ x = 0 then 255 else 0) true
      = 1 :: List.replicate 1023 0 ∧
    (Conv3.image_to_xbm_bytes (fun y x => if y = 0 ∧ x = 7 then 255 else 0) true).getD 0 0
      = 0x80 := by
  refine ⟨fun img p => packXBM_length _, fun img => packXBM_length _, ?_, ?_⟩
  · decide
  · decide

/-- C3 (amended): conv3's decoder fails on every input whose length differs
from 1024; conv.py's decoder fails only on inputs shorter than 1024 and
accepts every longer input. -/
theorem C3_decode_length_check :
    (∀ (data : List Nat) (p : Bool), data.length ≠ 1024 →
        Conv3.xbm_bytes_to_image data p = none) ∧
    (∀ data : List Nat, data.length < 1024 → Conv.xbm_bytes_to_image data = none) ∧
    (∀ data : List Nat, 1024 ≤ data.length →
        (Conv.xbm_bytes_to_image data).isSome = true) := by
  refine ⟨fun data p h => ?_, fun data h => ?_, fun data h => ?_⟩
  · rw [Conv3.xbm_bytes_to_image, if_neg]
    rw [BYTES_EXPECTED_eq]
    exact h
  · rw [Conv.xbm_bytes_to_image, if_neg]
    rw [BYTES_EXPECTED_eq]
    omega
  · rw [Conv.xbm_bytes_to_image, if_pos (by rw [BYTES_EXPECTED_eq]; exact h)]
    rfl

/-- Counterexample to C3 as stated: a 1025-byte input is not rejected by
conv.py's decoder, which silently decodes its first 1024 bytes. -/
theorem C3_counterexample :
    (List.replicate 1025 (0 : Nat)).length ≠ 1024 ∧
    (Conv.xbm_bytes_to_image (List.replicate 1025 0)).isSome = true := by
  constructor
  · simp
  · rw [Conv.xbm_bytes_to_image, if_pos (by rw [BYTES_EXPECTED_eq]; simp)]
    rfl

/-- Concrete instances of the amended length-check behaviour. -/
theorem C3_witness :
    Conv3.xbm_bytes_to_image (List.replicate 7 0) true = none ∧
    Conv.xbm_bytes_to_image (List.replicate 7 0) = none ∧
    (Conv.xbm_bytes_to_image (List.replicate 2000 0)).isSome = true :=
  ⟨C3_decode_length_check.1 _ true (by simp),
   C3_decode_length_check.2.1 _ (by simp),
   C3_decode_length_check.2.2 _ (by simp)⟩

lemma packXBM_congr (f g : Nat → Nat → Bool)
    (h : ∀ y x, y < 64 → x < 128 → f y x = g y x) : packXBM f = packXBM g := by
  rw [packXBM_eq_map, packXBM_eq_map]
  apply List.map_congr_left
  intro i hi
  have hi1024 : i < 1024 := by
    simpa [HEIGHT, ROW_BYTES, WIDTH] using List.mem_range.mp hi
  rw [packByte_eq_byte8, packByte_eq_byte8]
  have hy : i / 16 < 64 := by omega
  have hb : ∀ k, k < 8 → f (i / 16) (i % 16 * 8 + k) = g (i / 16) (i % 16 * 8 + k) :=
    fun k hk => h _ _ hy (by omega)
  rw [hb 0 (by omega), hb 1 (by omega), hb 2 (by omega), hb 3 (by omega),
    hb 4 (by omega), hb 5 (by omega), hb 6 (by omega), hb 7 (by omega)]

/-- C10 (amended): the two binarize-and-pack pipelines agree on every
grayscale raster that avoids the value exactly 128; conv.py thresholds with
a strict comparison (arr > 128) and conv3.py with a non-strict one
(arr >= 128), so exactly 128 is the one gray level they classify apart. -/
theorem C10_pipelines_agree_off_128 (img : Nat → Nat → Nat)
    (h : ∀ y x, y < 64 → x < 128 → img y x ≠ 128) :
    Conv.image_to_xbm_bytes (Conv.to_bw img)
      = Conv3.image_to_xbm_bytes (Conv3.to_bw 128 false img) true := by
  unfold Conv.image_to_xbm_bytes Conv3.image_to_xbm_bytes
  apply packXBM_congr
  intro y x hy hx
  have hne := h y x hy hx
  show (Conv.to_bw img y x == 255) = Conv3.pixOn (Conv3.to_bw 128 false img) true y x
  have hconv : Conv.to_bw img y x = if 128 < img y x then 255 else 0 := rfl
  have hpix : Conv3.pixOn (Conv3.to_bw 128 false img) true y x
      = (Conv3.to_bw 128 false img y x == 255) := rfl
  have hconv3 : Conv3.to_bw 128 false img y x = if 128 ≤ img y x then 255 else 0 := rfl
  rw [hconv, hpix, hconv3]
  rcases Nat.lt_trichotomy (img y x) 128 with hlt | heq | hgt
  · rw [if_neg (by omega), if_neg (by omega)]
  · exact absurd heq hne
  · rw [if_pos (by omega), if_pos (by omega)]

/-- Counterexample to C10 as stated: at gray level exactly 128 conv.py's
to_bw yields black while conv3.py's (threshold 128, no invert) yields white,
and the packed outputs of the two pipelines differ already at byte 0 on the
constant-128 raster. -/
theorem C10_counterexample :
    Conv.to_bw_pixel 128 = 0 ∧ Conv3.to_bw_pixel 128 false 128 = 255 ∧
    (Conv.image_to_xbm_bytes (Conv.to_bw (fun _ _ => 128))).getD 0 0 ≠
      (Conv3.image_to_xbm_bytes (Conv3.to_bw 128 false (fun _ _ => 128)) true).getD 0 0 := by
  refine ⟨rfl, rfl, ?_⟩
  decide

/-- Concrete instance of the amended pipeline agreement. -/
theorem C10_witness :
    Conv.image_to_xbm_bytes (Conv.to_bw (fun _ _ => 0))
      = Conv3.image_to_xbm_bytes (Conv3.to_bw 128 false (fun _ _ => 0)) true :=
  C10_pipelines_agree_off_128 (fun _ _ => 0) (fun _ _ _ _ => by simp)

namespace Translator

lemma foldl_frames_length {α : Type} (body : AnimState → α → AnimState) (k : Nat)
    (hb : ∀ s a, ((body s a).frames).length = s.frames.length + k) :
    ∀ (l : List α) (s : AnimState),
      ((l.foldl body s).frames).length = s.frames.length + l.length * k := by
  intro l
  induction l with
  | nil => intro s; simp
  | cons a t ih =>
    intro s
    rw [List.foldl_cons, ih, hb]
    simp only [List.length_cons]
    ring

lemma drawEyes_len (s : AnimState) :
    ((drawEyes s).frames).length = s.frames.length + 1 := by
  simp [drawEyes]

lemma repFrames_len (n : Nat) (s : AnimState) :
    ((repFrames n s).frames).length = s.frames.length + n := by
  simp [repFrames]

lemma centerEyes_frames (s : AnimState) : (centerEyes s).frames = s.frames := rfl

lemma blinkStep_len (d : Int) (s : AnimState) :
    ((blinkStep d s).frames).length = s.frames.length + 1 := by
  simp [blinkStep, drawEyes]

lemma happyStep_len (s : AnimState) (i : Nat) :
    ((happyStep s i).frames).length = s.frames.length + 1 := by
  simp [happyStep]

lemma sadStep_len (s : AnimState) (i : Nat) :
    ((sadStep s i).frames).length = s.frames.length + 1 := by
  simp [sadStep]

lemma angryStep_len (s : AnimState) (i : Nat) :
    ((angryStep s i).frames).length = s.frames.length + 1 := by
  simp [angryStep]

lemma tiredStep_len (s : AnimState) (i : Nat) :
    ((tiredStep s i).frames).length = s.frames.length + 1 := by
  simp [tiredStep]

lemma heartStep_len (s : AnimState) (i : Nat) :
    ((heartStep s i).frames).length = s.frames.length + 1 := by
  simp [heartStep]

lemma sleepClose_len (s : AnimState) (i : Nat) :
    ((sleepClose s i).frames).length = s.frames.length + 1 := by
  simp [sleepClose, drawEyes]

lemma sleepCycle_len (s : AnimState) (i : Nat) :
    ((sleepCycle s i).frames).length = s.frames.length + 20 := by
  simp [sleepCycle, repFrames, drawEyes]

lemma blink_len (speed : Int) (s : AnimState) :
    ((blink speed s).frames).length = s.frames.length + 6 := by
  unfold blink
  rw [foldl_frames_length _ 1 (fun s _ => blinkStep_len (-speed) s),
    foldl_frames_length _ 1 (fun s _ => blinkStep_len speed s)]
  simp [centerEyes]

lemma happyEye_len (s : AnimState) :
    ((happyEye s).frames).length = s.frames.length + 11 := by
  unfold happyEye
  rw [foldl_frames_length happyStep 1 happyStep_len, drawEyes_len]
  simp [centerEyes]

lemma sadEye_len (s : AnimState) :
    ((sadEye s).frames).length = s.frames.length + 41 := by
  unfold sadEye
  rw [repFrames_len, foldl_frames_length sadStep 1 sadStep_len, drawEyes_len]
  simp [centerEyes]

lemma angryEye_len (s : AnimState) :
    ((angryEye s).frames).length = s.frames.length + 41 := by
  unfold angryEye
  rw [repFrames_len, foldl_frames_length angryStep 1 angryStep_len, drawEyes_len]
  simp [centerEyes]

lemma tiredEye_len (s : AnimState) :
    ((tiredEye s).frames).length = s.frames.length + 41 := by
  unfold tiredEye
  rw [repFrames_len, foldl_frames_length tiredStep 1 tiredStep_len, drawEyes_len]
  simp [centerEyes]

lemma heart_eye_len (s : AnimState) :
    ((heart_eye s).frames).length = s.frames.length + 42 := by
  unfold heart_eye
  rw [repFrames_len, foldl_frames_length heartStep 1 heartStep_len]
  simp [centerEyes]

lemma saccade_len (s : AnimState) (dx dy : Int) :
    ((saccade s dx dy).frames).length = s.frames.length + 7 := by
  simp [saccade, repFrames, drawEyes, saccadeMove]

lemma glance_len (s : AnimState) (dx dy : Int) :
    ((glance s dx dy).frames).length = s.frames.length + 8 := by
  unfold glance
  rw [drawEyes_len, centerEyes_frames, saccade_len]

lemma sleepingEye_len (s : AnimState) :
    ((sleepingEye s).frames).length = s.frames.length + 101 := by
  unfold sleepingEye
  rw [drawEyes_len, foldl_frames_length sleepCycle 20 sleepCycle_len, repFrames_len,
    foldl_frames_length sleepClose 1 sleepClose_len]
  simp [centerEyes]

lemma run_blink_len (r : Rand) (g : Eyes) : ((run r "blink" g).1).length = 7 := by
  show ((blink 8 (drawEyes (initAnim g))).frames).length = 7
  rw [blink_len, drawEyes_len]
  simp [initAnim]

lemma run_happy_len (r : Rand) (g : Eyes) : ((run r "happy" g).1).length = 11 := by
  show ((happyEye (initAnim g)).frames).length = 11
  rw [happyEye_len]
  simp [initAnim]

lemma run_sad_len (r : Rand) (g : Eyes) : ((run r "sad" g).1).length = 41 := by
  show ((sadEye (initAnim g)).frames).length = 41
  rw [sadEye_len]
  simp [initAnim]

lemma run_angry_len (r : Rand) (g : Eyes) : ((run r "angry" g).1).length = 41 := by
  show ((angryEye (initAnim g)).frames).length = 41
  rw [angryEye_len]
  simp [initAnim]

lemma run_tired_len (r : Rand) (g : Eyes) : ((run r "tired" g).1).length = 41 := by
  show ((tiredEye (initAnim g)).frames).length = 41
  rw [tiredEye_len]
  simp [initAnim]

lemma run_heart_len (r : Rand) (g : Eyes) : ((run r "heart_eye" g).1).length = 42 := by
  show ((heart_eye (initAnim g)).frames).length = 42
  rw [heart_eye_len]
  simp [initAnim]

lemma run_sleeping_len (r : Rand) (g : Eyes) : ((run r "sleeping" g).1).length = 101 := by
  show ((sleepingEye (initAnim g)).frames).length = 101
  rw [sleepingEye_len]
  simp [initAnim]

end Translator

/-- C4: the if/elif chain of run has no else branch, so every identifier
outside the enumerated set leaves the fresh frame list empty: the entry
point silently yields an empty frame sequence instead of failing. -/
theorem C4_unknown_expression_yields_empty_frames :
    ∀ expr : String, expr ∉ Translator.exprList →
      ∀ (r : Translator.Rand) (g : Translator.Eyes),
        (Translator.run r expr g).1 = [] := by
  intro expr h r g
  simp only [Translator.exprList, List.mem_cons, List.mem_singleton, not_or,
    List.not_mem_nil] at h
  obtain ⟨h1, h2, h3, h4, h5, h6, h7, h8, h9, h10, h11, h12⟩ := h
  show (Translator.dispatch r expr (Translator.initAnim g)).frames = []
  simp [Translator.dispatch, Translator.initAnim,
    h1, h2, h3, h4, h5, h6, h7, h8, h9, h10, h11, h12]

/-- Concrete unknown identifier: the entry point returns zero frames. -/
theorem C4_witness :
    ("flamingo" : String) ∉ Translator.exprList ∧
    (Translator.run Translator.rand0 "flamingo" Translator.initEyes).1 = [] :=
  ⟨by decide,
   C4_unknown_expression_yields_empty_frames "flamingo" (by decide)
     Translator.rand0 Translator.initEyes⟩

/-- C5 (amended): the entry point yields 7 frames for blink (1 pre-render
in run plus 3 closing and 3 opening steps), 11 for happy (1 centered render
plus 10 overlay steps), and 41 for angry, sad and tired (1 centered render,
10 animated steps, 30 hold frames). -/
theorem C5_run_frame_counts (r : Translator.Rand) (g : Translator.Eyes) :
    ((Translator.run r "blink" g).1).length = 7 ∧
    ((Translator.run r "happy" g).1).length = 11 ∧
    ((Translator.run r "angry" g).1).length = 41 ∧
    ((Translator.run r "sad" g).1).length = 41 ∧
    ((Translator.run r "tired" g).1).length = 41 :=
  ⟨Translator.run_blink_len r g, Translator.run_happy_len r g,
   Translator.run_angry_len r g, Translator.run_sad_len r g,
   Translator.run_tired_len r g⟩

/-- Counterexample to C5 as stated: none of the claimed counts 6, 10, 10,
40, 40 matches the code. -/
theorem C5_counterexample :
    ((Translator.run Translator.rand0 "blink" Translator.initEyes).1).length ≠ 6 ∧
    ((Translator.run Translator.rand0 "happy" Translator.initEyes).1).length ≠ 10 ∧
    ((Translator.run Translator.rand0 "angry" Translator.initEyes).1).length ≠ 10 ∧
    ((Translator.run Translator.rand0 "sad" Translator.initEyes).1).length ≠ 40 ∧
    ((Translator.run Translator.rand0 "tired" Translator.initEyes).1).length ≠ 40 :=
  ⟨by rw [Translator.run_blink_len]; omega,
   by rw [Translator.run_happy_len]; omega,
   by rw [Translator.run_angry_len]; omega,
   by rw [Translator.run_sad_len]; omega,
   by rw [Translator.run_tired_len]; omega⟩

/-- C6 (amended): heart_eye yields 42 frames (1 cleared frame, 5 growth
steps, 36 hold frames) and sleeping yields 101 frames
(10 + 30 + 3 * (1 + 6 + 1 + 12) + 1). -/
theorem C6_heart_sleeping_frame_counts (r : Translator.Rand) (g : Translator.Eyes) :
    ((Translator.run r "heart_eye" g).1).length = 42 ∧
    ((Translator.run r "sleeping" g).1).length = 101 :=
  ⟨Translator.run_heart_len r g, Translator.run_sleeping_len r g⟩

/-- Counterexample to C6 as stated: the claimed totals 41 and 95 both
contradict the code (1 + 5 + 36 = 42 and 10 + 30 + 60 + 1 = 101). -/
theorem C6_counterexample :
    ((Translator.run Translator.rand0 "heart_eye" Translator.initEyes).1).length ≠ 41 ∧
    ((Translator.run Translator.rand0 "sleeping" Translator.initEyes).1).length ≠ 95 :=
  ⟨by rw [Translator.run_heart_len]; omega,
   by rw [Translator.run_sleeping_len]; omega⟩

/-- C7 (amended): after glance(dx, dy) the widths, heights and vertical
positions of both records are back at the canonical 40 / 40 / 32, and its
final frame renders the eyes from the post-glance geometry; but centerEyes
never resets x, so both x coordinates stay shifted by 16 * dx from their
pre-invocation values. In particular look_left and look_right leave the
records displaced by -16 and +16 while look_up (dx = 0) does restore the
full canonical pose. -/
theorem C7_glance_resets_all_but_x (s : Translator.AnimState) (dx dy : Int)
    (r : Translator.Rand) (g : Translator.Eyes) :
    (Translator.glance s dx dy).left.w = 40 ∧
    (Translator.glance s dx dy).left.h = 40 ∧
    (Translator.glance s dx dy).left.y = 32 ∧
    (Translator.glance s dx dy).right.w = 40 ∧
    (Translator.glance s dx dy).right.h = 40 ∧
    (Translator.glance s dx dy).right.y = 32 ∧
    (Translator.glance s dx dy).left.x = s.left.x + 16 * dx ∧
    (Translator.glance s dx dy).right.x = s.right.x + 16 * dx ∧
    (Translator.glance s dx dy).frames.getLast? =
      some (Translator.eyeOps (Translator.glance s dx dy).left
        (Translator.glance s dx dy).right) ∧
    ((Translator.run r "look_left" g).2).left.x = g.left.x - 16 ∧
    ((Translator.run r "look_right" g).2).left.x = g.left.x + 16 ∧
    ((Translator.run r "look_up" g).2).left.x = g.left.x ∧
    ((Translator.run r "look_up" g).2).left.y = 32 ∧
    ((Translator.run r "look_up" g).2).left.w = 40 ∧
    ((Translator.run r "look_up" g).2).left.h = 40 := by
  refine ⟨rfl, rfl, rfl, rfl, rfl, rfl, ?_, ?_, ?_, ?_, ?_, ?_, rfl, rfl, rfl⟩
  · show s.left.x + 8 * dx + 8 * dx = s.left.x + 16 * dx
    ring
  · show s.right.x + 8 * dx + 8 * dx = s.right.x + 16 * dx
    ring
  · show ((Translator.repFrames 3 _).frames ++ [Translator.eyeOps _ _]).getLast? = _
    simp
    rfl
  · show g.left.x + 8 * (-1) + 8 * (-1) = g.left.x - 16
    ring
  · show g.left.x + 8 * 1 + 8 * 1 = g.left.x + 16
    ring
  · show g.left.x + 8 * 0 + 8 * 0 = g.left.x
    ring

/-- Counterexample to C7 as stated: after the glance performed by
look_left from the initial geometry, the left record's x is 23, not the
reference center 64 - 20 - 5 = 39. -/
theorem C7_counterexample :
    ((Translator.run Translator.rand0 "look_left" Translator.initEyes).2).left.x
      ≠ 64 - 20 - 5 := by
  decide

/-- C8 (amended): for every identifier other than look_around the frame
sequence and the final geometry are a deterministic function of the
identifier and the pre-invocation eye records: the injected randomness is
never consulted. Determinism across two invocations therefore holds exactly
when both start from the same records; the glance expressions shift the
persistent x coordinates, so back-to-back repeats of look_left differ. -/
theorem C8_deterministic_except_look_around :
    ∀ expr ∈ Translator.exprList, expr ≠ "look_around" →
      ∀ (r1 r2 : Translator.Rand) (g : Translator.Eyes),
        Translator.run r1 expr g = Translator.run r2 expr g := by
  intro expr hmem hne r1 r2 g
  simp only [Translator.exprList, List.mem_cons, List.mem_singleton,
    List.not_mem_nil, or_false] at hmem
  rcases hmem with rfl | rfl | rfl | rfl | rfl | rfl | rfl | rfl | rfl | rfl | rfl | rfl
  · rfl
  · rfl
  · rfl
  · rfl
  · rfl
  · rfl
  · rfl
  · rfl
  · rfl
  · rfl
  · exact absurd rfl hne
  · rfl

/-- Concrete instance: blink ignores the injected randomness. -/
theorem C8_witness :
    (("blink" : String) ∈ Translator.exprList ∧ ("blink" : String) ≠ "look_around") ∧
    Translator.run Translator.rand0 "blink" Translator.initEyes
      = Translator.run ⟨[], 5⟩ "blink" Translator.initEyes :=
  ⟨⟨by decide, by decide⟩,
   C8_deterministic_except_look_around "blink" (by decide) (by decide)
     Translator.rand0 ⟨[], 5⟩ Translator.initEyes⟩

/-- Counterexample to C8 as stated: look_left is not look_around, yet two
back-to-back invocations of look_left in the same process yield different
frame sequences, because the first one leaves both x coordinates shifted. -/
theorem C8_counterexample :
    ("look_left" : String) ≠ "look_around" ∧
    (Translator.run Translator.rand0 "look_left" Translator.initEyes).1 ≠
      (Translator.run Translator.rand0 "look_left"
        ((Translator.run Translator.rand0 "look_left" Translator.initEyes).2)).1 := by
  constructor
  · decide
  · decide

namespace Conv3

lemma scanHex_nil : scanHex [] = [] := by
  simp [scanHex]

lemma scanHex_one (c : Char) : scanHex [c] = [] := by
  simp [scanHex]

lemma scanHex_two (c0 c1 : Char) : scanHex [c0, c1] = [] := by
  simp [scanHex]

lemma scanHex_three (c0 c1 d1 : Char) : scanHex [c0, c1, d1] =
    (if c0 = '0' ∧ c1 = 'x' ∧ isHexDig d1 then [[c0, c1, d1]] else []) := by
  simp only [scanHex]

lemma scanHex_four (c0 c1 d1 d2 : Char) (r : List Char) :
    scanHex (c0 :: c1 :: d1 :: d2 :: r) =
    (if c0 = '0' ∧ c1 = 'x' ∧ isHexDig d1 then
      if isHexDig d2 then [c0, c1, d1, d2] :: scanHex r
      else [c0, c1, d1] :: scanHex (d2 :: r)
    else scanHex (c1 :: d1 :: d2 :: r)) := by
  simp only [scanHex]

/-- Scanning from a position whose next character is not x cannot start a
match there, so the scan of c :: l is the scan of l. -/
lemma scan_cons_of_ne (c : Char) (l : List Char)
    (h : ∀ c1, l.head? = some c1 → c1 ≠ 'x') : scanHex (c :: l) = scanHex l := by
  rcases l with _ | ⟨c1, _ | ⟨d1, _ | ⟨d2, r⟩⟩⟩
  · rw [scanHex_one, scanHex_nil]
  · rw [scanHex_two, scanHex_one]
  · rw [scanHex_three, if_neg (fun hcon => h c1 rfl hcon.2.1), scanHex_two]
  · rw [scanHex_four, if_neg (fun hcon => h c1 rfl hcon.2.1)]

/-- A prefix without x, followed by text that does not start with x, is
skipped whole by the scan. -/
lemma scan_skip : ∀ (s t : List Char), (∀ c ∈ s, c ≠ 'x') →
    (∀ c, t.head? = some c → c ≠ 'x') → scanHex (s ++ t) = scanHex t := by
  intro s
  induction s with
  | nil => intro t _ _; rfl
  | cons c s1 ih =>
    intro t hs ht
    have hhead : ∀ c1, (s1 ++ t).head? = some c1 → c1 ≠ 'x' := by
      cases s1 with
      | nil => simpa using ht
      | cons c2 s2 =>
        intro c1 hc1
        simp only [List.cons_append, List.head?_cons, Option.some.injEq] at hc1
        subst hc1
        exact hs c2 (by simp)
    rw [List.cons_append, scan_cons_of_ne c (s1 ++ t) hhead]
    exact ih t (fun c1 hc1 => hs c1 (by simp [hc1])) ht

/-- A complete 0xHH token at the head of the text is matched greedily and
the scan continues right after it. -/
lemma scan_token (d1 d2 : Char) (t : List Char)
    (h1 : isHexDig d1 = true) (h2 : isHexDig d2 = true) :
    scanHex ('0' :: 'x' :: d1 :: d2 :: t) = ['0', 'x', d1, d2] :: scanHex t := by
  rw [scanHex_four, if_pos ⟨rfl, rfl, h1⟩, if_pos h2]

lemma hexDigitChar_isHex : ∀ n, n < 16 → isHexDig (hexDigitChar n) = true := by
  decide

lemma scan_byteHex (b : Nat) (hb : b < 256) (t : List Char) :
    scanHex (byteHex b ++ t) = byteHex b :: scanHex t := by
  show scanHex ('0' :: 'x' :: hexDigitChar (b / 16) :: hexDigitChar (b % 16) :: t)
    = byteHex b :: scanHex t
  rw [scan_token _ _ t (hexDigitChar_isHex _ (by omega)) (hexDigitChar_isHex _ (by omega))]
  rfl

lemma hexJoin_cons_head (b : Nat) (bs : List Nat) (t : List Char) :
    ∀ c, (hexJoin (b :: bs) ++ t).head? = some c → c ≠ 'x' := by
  cases bs <;>
    · intro c hc
      simp only [hexJoin, byteHex, List.cons_append, List.head?_cons,
        Option.some.injEq] at hc
      subst hc
      decide

/-- Scanning the comma-space join of hex literals yields exactly the per
byte tokens and then continues with the trailing text. -/
lemma scan_hexJoin : ∀ (bs : List Nat) (t : List Char), (∀ b ∈ bs, b < 256) →
    (∀ c, t.head? = some c → c ≠ 'x') →
    scanHex (hexJoin bs ++ t) = bs.map byteHex ++ scanHex t := by
  intro bs
  induction bs with
  | nil => intro t _ _; rfl
  | cons b bs1 ih =>
    intro t hb ht
    cases bs1 with
    | nil =>
      show scanHex (byteHex b ++ t) = _
      rw [scan_byteHex b (hb b (by simp)) t]
      rfl
    | cons b2 bs2 =>
      show scanHex ((byteHex b ++ ',' :: ' ' :: hexJoin (b2 :: bs2)) ++ t) = _
      rw [List.append_assoc, scan_byteHex b (hb b (by simp))]
      rw [show (',' :: ' ' :: hexJoin (b2 :: bs2)) ++ t
        = ',' :: (' ' :: (hexJoin (b2 :: bs2) ++ t)) from by simp]
      rw [scan_cons_of_ne ',' _ (by
        intro c hc
        simp only [List.head?_cons, Option.some.injEq] at hc
        subst hc
        decide)]
      rw [scan_cons_of_ne ' ' _ (hexJoin_cons_head b2 bs2 t)]
      rw [ih t (fun b3 hb3 => hb b3 (by simp [hb3])) ht]
      rfl

/-- Scanning one emitted line yields the tokens of its chunk. -/
lemma scan_lineOf (ch : List Nat) (t : List Char) (hb : ∀ b ∈ ch, b < 256)
    (ht : ∀ c, t.head? = some c → c ≠ 'x') :
    scanHex (lineOf ch ++ t) = ch.map byteHex ++ scanHex t := by
  show scanHex ('\t' :: ((hexJoin ch ++ [',']) ++ t)) = _
  rw [List.append_assoc]
  rw [scan_cons_of_ne '\t' _ (by
    cases ch with
    | nil =>
      intro c hc
      simp only [hexJoin, List.nil_append, List.cons_append, List.head?_cons,
        Option.some.injEq] at hc
      subst hc
      decide
    | cons b bs => exact hexJoin_cons_head b bs ([','] ++ t))]
  rw [scan_hexJoin ch ([','] ++ t) hb (by
    intro c hc
    simp only [List.cons_append, List.head?_cons, Option.some.injEq] at hc
    subst hc
    decide)]
  rw [show ([','] ++ t) = ',' :: t from rfl, scan_cons_of_ne ',' t ht]

lemma joinNL_lineOf_head (ch : List Nat) (L : List (List Char)) (t : List Char) :
    ∀ c, (joinNL (lineOf ch :: L) ++ t).head? = some c → c ≠ 'x' := by
  cases L <;>
    · intro c hc
      simp only [joinNL, lineOf, List.cons_append, List.head?_cons,
        Option.some.injEq] at hc
      subst hc
      decide

/-- Scanning the newline join of all emitted lines yields the tokens of the
concatenated chunks. -/
lemma scan_body : ∀ (chunks : List (List Nat)) (t : List Char),
    (∀ ch ∈ chunks, ∀ b ∈ ch, b < 256) →
    (∀ c, t.head? = some c → c ≠ 'x') →
    scanHex (joinNL (chunks.map lineOf) ++ t)
      = chunks.flatten.map byteHex ++ scanHex t := by
  intro chunks
  induction chunks with
  | nil => intro t _ _; rfl
  | cons ch rest ih =>
    intro t hb ht
    cases rest with
    | nil =>
      show scanHex (lineOf ch ++ t) = _
      rw [scan_lineOf ch t (hb ch (by simp)) ht]
      simp
    | cons ch2 rest2 =>
      show scanHex ((lineOf ch ++ '\n' :: joinNL (lineOf ch2 :: rest2.map lineOf)) ++ t) = _
      rw [List.append_assoc, scan_lineOf ch _ (hb ch (by simp)) (by
        intro c hc
        simp only [List.cons_append, List.head?_cons, Option.some.injEq] at hc
        subst hc
        decide)]
      rw [show ('\n' :: joinNL (lineOf ch2 :: rest2.map lineOf)) ++ t
        = '\n' :: (joinNL (lineOf ch2 :: rest2.map lineOf) ++ t) from rfl]
      rw [scan_cons_of_ne '\n' _ (joinNL_lineOf_head ch2 (rest2.map lineOf) t)]
      have hih := ih t (fun ch3 hch3 => hb ch3 (by simp [hch3])) ht
      simp only [List.map_cons] at hih
      rw [hih]
      simp

lemma chunk16_cons (l : List Nat) (h : l ≠ []) :
    chunk16 l = l.take 16 :: chunk16 (l.drop 16) := by
  rw [chunk16, dif_neg h]

lemma chunk16_flatten_aux : ∀ (n : Nat) (l : List Nat), l.length ≤ n →
    (chunk16 l).flatten = l := by
  intro n
  induction n with
  | zero =>
    intro l hl
    have hnil : l = [] := by cases l <;> simp_all
    subst hnil
    rw [chunk16]
    simp
  | succ n ih =>
    intro l hl
    by_cases h : l = []
    · subst h
      rw [chunk16]
      simp
    · have hpos : 0 < l.length := List.length_pos.mpr h
      rw [chunk16_cons l h, List.flatten_cons,
        ih (l.drop 16) (by simp only [List.length_drop]; omega)]
      exact List.take_append_drop 16 l

lemma chunk16_flatten (l : List Nat) : (chunk16 l).flatten = l :=
  chunk16_flatten_aux l.length l le_rfl

lemma chunk16_bound (l : List Nat) (hb : ∀ b ∈ l, b < 256) :
    ∀ ch ∈ chunk16 l, ∀ b ∈ ch, b < 256 := by
  intro ch hch b hbch
  refine hb b ?_
  rw [← chunk16_flatten l]
  exact List.mem_flatten.mpr ⟨ch, hch, hbch⟩

lemma digitChar_ne_x : ∀ m, m < 10 → Char.ofNat (48 + m) ≠ 'x' := by decide

lemma natDecimal_no_x : ∀ (n : Nat), ∀ c ∈ natDecimal n, c ≠ 'x' := by
  intro n
  induction n using Nat.strong_induction_on with
  | _ n ih =>
    intro c hc
    rw [natDecimal] at hc
    by_cases h : n < 10
    · rw [if_pos h] at hc
      simp only [List.mem_singleton] at hc
      subst hc
      exact digitChar_ne_x n h
    · rw [if_neg h] at hc
      rcases List.mem_append.mp hc with h1 | h2
      · exact ih (n / 10) (Nat.div_lt_self (by omega) (by omega)) c h1
      · simp only [List.mem_singleton] at h2
        subst h2
        exact digitChar_ne_x (n % 10) (Nat.mod_lt _ (by omega))

lemma intDecimal_no_x (i : Int) : ∀ c ∈ intDecimal i, c ≠ 'x' := by
  intro c hc
  rw [intDecimal] at hc
  by_cases h : i < 0
  · rw [if_pos h] at hc
    rcases List.mem_cons.mp hc with rfl | hm
    · decide
    · exact natDecimal_no_x _ c hm
  · rw [if_neg h] at hc
    exact natDecimal_no_x _ c hc

lemma tokenVal_byteHex : ∀ b, b < 256 → tokenVal (byteHex b) = b := by decide

lemma map_tokenVal_byteHex (data : List Nat) (hb : ∀ b ∈ data, b < 256) :
    (data.map byteHex).map tokenVal = data := by
  rw [List.map_map]
  calc data.map (tokenVal ∘ byteHex)
      = data.map id := List.map_congr_left (fun b hm => tokenVal_byteHex b (hb b hm))
    _ = data := List.map_id data

lemma lit1_no_x : ∀ c ∈ ("const unsigned char epd_bitmap_".data), c ≠ 'x' := by
  decide

lemma lit2_no_x : ∀ c ∈ (" [] PROGMEM = \x7b\n".data), c ≠ 'x' := by
  decide

lemma scan_footer : scanHex ("\n\x7d;".data) = [] := by
  rw [show ("\n\x7d;".data) = ['\n', '\x7d', ';'] from rfl, scanHex_three,
    if_neg (by decide)]

end Conv3

/-- C9: for every list of 1024 byte values in 0..255 and every frame index,
the hex tokens extracted by parse_c_array from the literal emitted by
format_c_array (0xHH values, 16 per line, comma-terminated) recover exactly
the input bytes. -/
theorem C9_format_parse_roundtrip (data : List Nat) (idx : Int)
    (hlen : data.length = 1024) (hb : ∀ b ∈ data, b ≤ 255) :
    Conv3.parse_c_array (Conv3.format_c_array data idx) = some data := by
  have hb256 : ∀ b ∈ data, b < 256 := fun b h => by have := hb b h; omega
  have hdata_ne : data ≠ [] := by
    intro h
    rw [h] at hlen
    simp at hlen
  have hchunk := Conv3.chunk16_cons data hdata_ne
  have hform : Conv3.format_c_array data idx
      = ("const unsigned char epd_bitmap_".data ++ Conv3.intDecimal idx
          ++ " [] PROGMEM = \x7b\n".data)
        ++ (Conv3.joinNL ((Conv3.chunk16 data).map Conv3.lineOf) ++ "\n\x7d;".data) := by
    simp [Conv3.format_c_array, List.append_assoc]
  have hhdr : ∀ c ∈ ("const unsigned char epd_bitmap_".data ++ Conv3.intDecimal idx
      ++ " [] PROGMEM = \x7b\n".data), c ≠ 'x' := by
    intro c hc
    rcases List.mem_append.mp hc with hc1 | hc2
    · rcases List.mem_append.mp hc1 with hc3 | hc4
      · exact Conv3.lit1_no_x c hc3
      · exact Conv3.intDecimal_no_x idx c hc4
    · exact Conv3.lit2_no_x c hc2
  have hbody_head : ∀ c, ((Conv3.joinNL ((Conv3.chunk16 data).map Conv3.lineOf)
      ++ "\n\x7d;".data).head? = some c) → c ≠ 'x' := by
    rw [hchunk]
    exact Conv3.joinNL_lineOf_head (data.take 16) _ _
  have hfoot_head : ∀ c, (("\n\x7d;".data).head? = some c) → c ≠ 'x' := by
    intro c hc
    rw [show ("\n\x7d;".data) = ['\n', '\x7d', ';'] from rfl] at hc
    simp only [List.head?_cons, Option.some.injEq] at hc
    subst hc
    decide
  have hscan : Conv3.scanHex (Conv3.format_c_array data idx) = data.map Conv3.byteHex := by
    rw [hform, Conv3.scan_skip _ _ hhdr hbody_head,
      Conv3.scan_body (Conv3.chunk16 data) _ (Conv3.chunk16_bound data hb256) hfoot_head,
      Conv3.chunk16_flatten data, Conv3.scan_footer]
    simp
  have htoks_ne : data.map Conv3.byteHex ≠ [] := by
    simp [hdata_ne]
  rw [Conv3.parse_c_array, hscan, if_neg htoks_ne,
    Conv3.map_tokenVal_byteHex data hb256, if_pos (by rw [hlen, BYTES_EXPECTED_eq])]

/-- Concrete instance of the formatting round trip on the all-zero frame. -/
theorem C9_witness :
    Conv3.parse_c_array (Conv3.format_c_array (List.replicate 1024 0) 0)
      = some (List.replicate 1024 0) :=
  C9_format_parse_roundtrip (List.replicate 1024 0) 0 (by simp)
    (fun b hm => by
      have := List.eq_of_mem_replicate hm
      omega)

end DasaiBuilder
